import Mathlib

/-!
Shallow embedding of the quartiq/etf-trace Embedded Trace FIFO (ETF) core:
the register bit layouts and controller operations of src/etf.rs and the
capture-sequencer loops of src/main.rs, together with theorems checking the
specification's claims about them.

Register words are 32-bit unsigned integers, modelled as Nat; wherever u32
overflow can matter the arithmetic is taken modulo 2^32 explicitly.  The
debug-probe transport is modelled as an oracle stream `s : Nat → Nat` giving
the raw word answered by the n-th register read issued, with a position
counter tracking how many reads were consumed.
-/

namespace EtfTrace

/-- Sentinel value of the RRD data register: `0xFFFF_FFFF` means no more data
is available in the FIFO (src/etf.rs, EmbeddedTraceFifo::read). -/
def sentinel : Nat := 0xFFFFFFFF

/-- Bitwise complement on a 32-bit word, as produced by Rust `!x` on `u32`:
all 32 bits flipped, no bits above bit 31. -/
def u32not (x : Nat) : Nat := (2 ^ 32 - 1) ^^^ x

/-- Status register getter `full` (bitfield Status, bit 0 of ETF_STS). -/
def Status.full (w : Nat) : Bool := w.testBit 0

/-- Status register getter `trigd` (bitfield Status, bit 1 of ETF_STS). -/
def Status.trigd (w : Nat) : Bool := w.testBit 1

/-- Status register getter `ready` (bitfield Status, bit 2 of ETF_STS). -/
def Status.ready (w : Nat) : Bool := w.testBit 2

/-- Status register getter `ftempty` (bitfield Status, bit 3 of ETF_STS). -/
def Status.ftempty (w : Nat) : Bool := w.testBit 3

/-- Status register getter `empty` (bitfield Status, bit 4 of ETF_STS). -/
def Status.empty (w : Nat) : Bool := w.testBit 4

/-- FormatFlushControl getter `stoponfl` (bit 12 of ETF_FFCR). -/
def FormatFlushControl.stoponfl (w : Nat) : Bool := w.testBit 12

/-- FormatFlushControl getter `flushman` (bit 6 of ETF_FFCR). -/
def FormatFlushControl.flushman (w : Nat) : Bool := w.testBit 6

/-- FormatFlushControl setter `set_stoponfl` (bit 12 of ETF_FFCR): the
bitfield macro performs `(w & !(1 << 12)) | ((b as u32) << 12)`. -/
def FormatFlushControl.setStoponfl (b : Bool) (w : Nat) : Nat :=
  if b then w ||| (1 <<< 12) else w &&& u32not (1 <<< 12)

/-- FormatFlushControl setter `set_flushman` (bit 6 of ETF_FFCR): the
bitfield macro performs `(w & !(1 << 6)) | ((b as u32) << 6)`. -/
def FormatFlushControl.setFlushman (b : Bool) (w : Nat) : Nat :=
  if b then w ||| (1 <<< 6) else w &&& u32not (1 <<< 6)

/-- EtfMode getter `mode` (bits [1:0] of ETF_MODE): `w & 0b11`. -/
def EtfMode.mode (w : Nat) : Nat := w &&& 3

/-- EtfMode setter `set_mode` (bits [1:0] of ETF_MODE): the bitfield macro
performs `(w & !0b11) | ((v as u32) & 0b11)`. -/
def EtfMode.setMode (v w : Nat) : Nat := (w &&& u32not 3) ||| (v &&& 3)

/-- FIFO operational mode (enum Mode in src/etf.rs). -/
inductive Mode
| Circular
| Software
| Hardware
deriving DecidableEq

/-- Discriminant of the `#[repr(u8)]` Mode enum: Circular = 0b00,
Software = 0b01, Hardware = 0b10. -/
def Mode.enc : Mode → Nat
| Mode.Circular => 0
| Mode.Software => 1
| Mode.Hardware => 2

/-- The ETF register file touched by the controller write paths: the CTL
(capture enable) register, the ETF_MODE register and the ETF_FFCR register. -/
structure EtfRegs where
  ctl : Nat
  modeReg : Nat
  ffcr : Nat
deriving DecidableEq

/-- EmbeddedTraceFifo::enable_capture: writes the full word 1 to CTL. -/
def enable_capture (r : EtfRegs) : EtfRegs := { r with ctl := 1 }

/-- EmbeddedTraceFifo::disable_capture: writes the full word 0 to CTL. -/
def disable_capture (r : EtfRegs) : EtfRegs := { r with ctl := 0 }

/-- EmbeddedTraceFifo::set_mode: loads ETF_MODE, overwrites the 2-bit mode
field with the enum discriminant, stores the word back. -/
def set_mode (m : Mode) (r : EtfRegs) : EtfRegs :=
  { r with modeReg := EtfMode.setMode (Mode.enc m) r.modeReg }

/-- EmbeddedTraceFifo::stop_on_flush: load-modify-store of ETF_FFCR setting
or clearing the stoponfl bit. -/
def stop_on_flush (stop : Bool) (r : EtfRegs) : EtfRegs :=
  { r with ffcr := FormatFlushControl.setStoponfl stop r.ffcr }

/-- EmbeddedTraceFifo::manual_flush: load-modify-store of ETF_FFCR setting
the flushman bit. -/
def manual_flush (r : EtfRegs) : EtfRegs :=
  { r with ffcr := FormatFlushControl.setFlushman true r.ffcr }

/-- EmbeddedTraceFifo::read applied to the raw RRD word one transport read
returned: the sentinel maps to None, every other word to Some unchanged. -/
def read (w : Nat) : Option Nat := if w = sentinel then none else some w

/-- EmbeddedTraceFifo::fill_level: the CBUFLVL register value (a word count)
times `size_of::<u32>() = 4`, as a u32 multiplication (wraps mod 2^32). -/
def fill_level (level : Nat) : Nat := level * 4 % 2 ^ 32

/-- EmbeddedTraceFifo::fifo_size: the RSZ register value (a word count)
times `size_of::<u32>() = 4`, as a u32 multiplication (wraps mod 2^32). -/
def fifo_size (size_words : Nat) : Nat := size_words * 4 % 2 ^ 32

/-- One register read over the transport oracle: consume the response at the
current position and advance by one. -/
def loadStatus (s : Nat → Nat) (p : Nat) : Nat × Nat := (s p, p + 1)

/-- EmbeddedTraceFifo::read over the transport oracle: issues exactly one
read of the data register. -/
def readOne (s : Nat → Nat) (p : Nat) : Option Nat × Nat :=
  (read (s p), p + 1)

/-- EmbeddedTraceFifo::full over the transport oracle: one fresh Status
load, returning its full bit. -/
def fullQ (s : Nat → Nat) (p : Nat) : Bool × Nat :=
  (Status.full (loadStatus s p).1, (loadStatus s p).2)

/-- EmbeddedTraceFifo::empty over the transport oracle: one fresh Status
load, returning its empty bit. -/
def emptyQ (s : Nat → Nat) (p : Nat) : Bool × Nat :=
  (Status.empty (loadStatus s p).1, (loadStatus s p).2)

/-- EmbeddedTraceFifo::ready over the transport oracle: one fresh Status
load, returning its ready bit. -/
def readyQ (s : Nat → Nat) (p : Nat) : Bool × Nat :=
  (Status.ready (loadStatus s p).1, (loadStatus s p).2)

/-- EmbeddedTraceFifo::triggered over the transport oracle: one fresh Status
load, returning its trigd bit. -/
def triggeredQ (s : Nat → Nat) (p : Nat) : Bool × Nat :=
  (Status.trigd (loadStatus s p).1, (loadStatus s p).2)

/-- The extraction loop of src/main.rs (lines 165-172) over the transport
oracle, with the number of remaining iterations as fuel.  Each iteration
first issues one data-register read; a non-sentinel word is appended to the
trace buffer and the loop continues; on the sentinel the loop issues one
Status load and breaks if its ready bit is set, otherwise continues.  The
result is the oracle position after the break, or none if the fuel ran out
with the loop still running. -/
def drainLoopFrom : Nat → (Nat → Nat) → Nat → Option Nat
| 0, _, _ => none
| fuel + 1, s, p =>
  if s p ≠ sentinel then drainLoopFrom fuel s (p + 1)
  else if Status.ready (s (p + 1)) then some (p + 2)
  else drainLoopFrom fuel s (p + 2)

/-- The drain loop diverges on the transport behaviour s: no amount of fuel
makes it exit. -/
def drainDiverges (s : Nat → Nat) : Prop :=
  ∀ fuel, drainLoopFrom fuel s 0 = none

/-- One operation issued on the ETF_FFCR register: a load observing a word,
or a store committing a word. -/
inductive FfcrEv
| load (w : Nat)
| store (w : Nat)
deriving DecidableEq

/-- EmbeddedTraceFifo::stop_on_flush as its sequence of ETF_FFCR operations:
a load of the current word, then a store of that word with the stoponfl bit
updated; paired with the committed register value. -/
def stopOnFlushOps (stop : Bool) (w : Nat) : List FfcrEv × Nat :=
  ([FfcrEv.load w, FfcrEv.store (FormatFlushControl.setStoponfl stop w)],
   FormatFlushControl.setStoponfl stop w)

/-- EmbeddedTraceFifo::manual_flush as its sequence of ETF_FFCR operations:
a load of the current word, then a store of that word with the flushman bit
set; paired with the committed register value. -/
def manualFlushOps (w : Nat) : List FfcrEv × Nat :=
  ([FfcrEv.load w, FfcrEv.store (FormatFlushControl.setFlushman true w)],
   FormatFlushControl.setFlushman true w)

/-- The Full-to-Stopping shutdown sequence of src/main.rs (lines 156-157):
`etf.stop_on_flush(true)` followed by `etf.manual_flush()`, as the ordered
trace of ETF_FFCR operations starting from register value w.  Stores commit
sequentially: the second call loads the word the first one stored. -/
def stopSequenceOps (w : Nat) : List FfcrEv × Nat :=
  ((stopOnFlushOps true w).1 ++ (manualFlushOps (stopOnFlushOps true w).2).1,
   (manualFlushOps (stopOnFlushOps true w).2).2)

/-- Disposition of one demultiplexed (tag, byte) pair in the extraction
match of src/main.rs (lines 194-201). -/
inductive TagAction
| write (data : Nat)
| discard
| warnDiscard (id data : Nat)
deriving DecidableEq

/-- The match arms of src/main.rs lines 195-200: bytes tagged with the ITM
ATID 13 are written to the output, bytes tagged 0 are discarded, and any
other tag is reported with a warning and the byte discarded. -/
def handleTaggedByte (id data : Nat) : TagAction :=
  if id = 13 then TagAction.write data
  else if id = 0 then TagAction.discard
  else TagAction.warnDiscard id data

/-- The demultiplexer consumer loop over a whole list of (tag, byte) pairs:
returns the bytes written to the ITM output and the warned-about pairs, in
input order.  It is a total function: no pair aborts processing. -/
def processPairs : List (Nat × Nat) → List Nat × List (Nat × Nat)
| [] => ([], [])
| (id, d) :: rest =>
  match handleTaggedByte id d, processPairs rest with
  | TagAction.write b, (out, warns) => (b :: out, warns)
  | TagAction.discard, (out, warns) => (out, warns)
  | TagAction.warnDiscard i b, (out, warns) => (out, (i, b) :: warns)

/-!
Helper lemmas about the bit-level register operations.
-/

lemma testBit_u32not_shift (n i : Nat) (hn : n < 32) :
    (u32not (1 <<< n)).testBit i = (decide (i < 32) && ! decide (n = i)) := by
  simp only [u32not, Nat.one_shiftLeft, Nat.testBit_xor, Nat.testBit_two_pow_sub_one,
    Nat.testBit_two_pow]
  by_cases hi : n = i
  · have h32 : i < 32 := by omega
    simp [h32, hi]
  · by_cases h32 : i < 32 <;> simp [h32, hi]

lemma setBit_true_self (n w : Nat) : (w ||| 1 <<< n).testBit n = true := by
  simp [Nat.testBit_lor, Nat.one_shiftLeft, Nat.testBit_two_pow_self]

lemma setBit_true_other (n w i : Nat) (h : i ≠ n) :
    (w ||| 1 <<< n).testBit i = w.testBit i := by
  simp [Nat.testBit_lor, Nat.one_shiftLeft, Nat.testBit_two_pow_of_ne (Ne.symm h)]

lemma setBit_false_self (n w : Nat) (hn : n < 32) :
    (w &&& u32not (1 <<< n)).testBit n = false := by
  simp [Nat.testBit_land, testBit_u32not_shift n n hn]

lemma testBit_high_false (w i : Nat) (hw : w < 2 ^ 32) (hi : 32 ≤ i) :
    w.testBit i = false := by
  exact Nat.testBit_lt_two_pow (lt_of_lt_of_le hw (Nat.pow_le_pow_right (by norm_num) hi))

lemma setBit_false_other (n w i : Nat) (hn : n < 32) (hw : w < 2 ^ 32) (h : i ≠ n) :
    (w &&& u32not (1 <<< n)).testBit i = w.testBit i := by
  simp only [Nat.testBit_land, testBit_u32not_shift n i hn]
  by_cases h32 : i < 32
  · have hn2 : n ≠ i := Ne.symm h
    simp [h32, hn2]
  · simp [h32, testBit_high_false w i hw (le_of_not_lt h32)]

lemma setStoponfl_testBit (b : Bool) (w i : Nat) (hw : w < 2 ^ 32) :
    (FormatFlushControl.setStoponfl b w).testBit i =
      (if i = 12 then b else w.testBit i) := by
  cases b with
  | false =>
    show (w &&& u32not (1 <<< 12)).testBit i = _
    by_cases hi : i = 12
    · subst hi
      rw [setBit_false_self 12 w (by norm_num)]
      simp
    · rw [setBit_false_other 12 w i (by norm_num) hw hi]
      simp [hi]
  | true =>
    show (w ||| 1 <<< 12).testBit i = _
    by_cases hi : i = 12
    · subst hi
      rw [setBit_true_self 12 w]
      simp
    · rw [setBit_true_other 12 w i hi]
      simp [hi]

lemma setFlushman_testBit (b : Bool) (w i : Nat) (hw : w < 2 ^ 32) :
    (FormatFlushControl.setFlushman b w).testBit i =
      (if i = 6 then b else w.testBit i) := by
  cases b with
  | false =>
    show (w &&& u32not (1 <<< 6)).testBit i = _
    by_cases hi : i = 6
    · subst hi
      rw [setBit_false_self 6 w (by norm_num)]
      simp
    · rw [setBit_false_other 6 w i (by norm_num) hw hi]
      simp [hi]
  | true =>
    show (w ||| 1 <<< 6).testBit i = _
    by_cases hi : i = 6
    · subst hi
      rw [setBit_true_self 6 w]
      simp
    · rw [setBit_true_other 6 w i hi]
      simp [hi]

lemma testBit_three (i : Nat) : (3 : Nat).testBit i = decide (i < 2) := by
  simpa using Nat.testBit_two_pow_sub_one 2 i

lemma testBit_u32not_three (i : Nat) :
    (u32not 3).testBit i = (decide (i < 32) && ! decide (i < 2)) := by
  simp only [u32not, Nat.testBit_xor, Nat.testBit_two_pow_sub_one, testBit_three]
  by_cases h2 : i < 2
  · have h32 : i < 32 := by omega
    simp [h32, h2]
  · by_cases h32 : i < 32 <;> simp [h32, h2]

lemma setMode_testBit_high (v w i : Nat) (hw : w < 2 ^ 32) (h2 : 2 ≤ i) :
    (EtfMode.setMode v w).testBit i = w.testBit i := by
  simp only [EtfMode.setMode, Nat.testBit_lor, Nat.testBit_land, testBit_u32not_three,
    testBit_three]
  by_cases h32 : i < 32
  · simp [h32, Nat.not_lt.mpr h2]
  · simp [h32, Nat.not_lt.mpr h2, testBit_high_false w i hw (le_of_not_lt h32)]

lemma mode_of_setMode (v w : Nat) :
    EtfMode.mode (EtfMode.setMode v w) = v &&& 3 := by
  apply Nat.eq_of_testBit_eq
  intro i
  simp only [EtfMode.mode, EtfMode.setMode, Nat.testBit_lor, Nat.testBit_land,
    testBit_u32not_three, testBit_three]
  by_cases h2 : i < 2
  · have h32 : i < 32 := by omega
    simp [h2, h32]
  · simp [h2]

lemma drain_none_of_no_sentinel (s : Nat → Nat) (h : ∀ i, s i ≠ sentinel) :
    ∀ fuel p, drainLoopFrom fuel s p = none := by
  intro fuel
  induction fuel with
  | zero => intro p; rfl
  | succ n ih => intro p; simp [drainLoopFrom, h p, ih]

lemma setStoponfl_lt (b : Bool) (w : Nat) (hw : w < 2 ^ 32) :
    FormatFlushControl.setStoponfl b w < 2 ^ 32 := by
  cases b with
  | false =>
    exact lt_of_le_of_lt Nat.and_le_left hw
  | true =>
    show w ||| 1 <<< 12 < 2 ^ 32
    exact Nat.or_lt_two_pow hw (by rw [Nat.one_shiftLeft]; norm_num)

lemma drain_exit_shape (s : Nat → Nat) :
    ∀ fuel p q, drainLoopFrom fuel s p = some q →
      p + 2 ≤ q ∧ s (q - 2) = sentinel ∧ Status.ready (s (q - 1)) = true := by
  intro fuel
  induction fuel with
  | zero => intro p q hq; simp [drainLoopFrom] at hq
  | succ n ih =>
    intro p q hq
    by_cases hp : s p = sentinel
    · by_cases hr : Status.ready (s (p + 1)) = true
      · simp [drainLoopFrom, hp, hr] at hq
        refine ⟨by omega, ?_, ?_⟩
        · rw [show q - 2 = p from by omega]; exact hp
        · rw [show q - 1 = p + 1 from by omega]; exact hr
      · simp [drainLoopFrom, hp, hr] at hq
        have := ih (p + 2) q hq
        exact ⟨by omega, this.2.1, this.2.2⟩
    · simp [drainLoopFrom, hp] at hq
      have := ih (p + 1) q hq
      exact ⟨by omega, this.2.1, this.2.2⟩

/-!
Concrete transport behaviours used by the counterexamples and witnesses.
-/

/-- Transport behaviour where the data read returns the sentinel, the Status
load then reports ready, and yet the following data read would return 5 (a
word became available between the sentinel read and the ready observation). -/
def c1Stream : Nat → Nat := fun i => if i = 0 then sentinel else if i = 1 then 4 else 5

/-- Transport behaviour where the data read returns the sentinel and the
Status load then reports ready (bit 2 set). -/
def c1WitnessStream : Nat → Nat := fun i => if i = 0 then sentinel else 4

/-- Transport behaviour whose data reads keep yielding the word 1 forever:
the sentinel never appears. -/
def c6Stream : Nat → Nat := fun _ => 1

/-- Transport behaviour whose data reads keep yielding the word 2 forever. -/
def c6WitnessStream : Nat → Nat := fun _ => 2

/-!
Claim theorems.
-/

/-- C1 counterexample: the drain loop of src/main.rs can terminate while a
subsequent read of the data register would still return a word.  On the
behaviour c1Stream the loop reads the sentinel, then observes ready, and
breaks; it never re-reads the data register after that ready observation,
and the read that would follow returns Some 5, not None. -/
theorem drain_terminates_with_pending_word :
    drainLoopFrom 1 c1Stream 0 = some 2 ∧ read (c1Stream 2) = some 5 := by
  constructor
  · rfl
  · rfl

/-- C1 amended: the drain loop exits only immediately after a data-register
read that returned the sentinel (read_one == None) followed by a Status load
whose ready bit is set, in that order; it never exits while the last
data-register read returned Some. -/
theorem drain_exit_requires_none_then_ready (s : Nat → Nat) (fuel q : Nat)
    (h : drainLoopFrom fuel s 0 = some q) :
    2 ≤ q ∧ s (q - 2) = sentinel ∧ Status.ready (s (q - 1)) = true := by
  have hs := drain_exit_shape s fuel 0 q h
  exact ⟨by omega, hs.2.1, hs.2.2⟩

/-- C1 witness: on c1WitnessStream the loop exits at position 2 and the
amended exit shape holds there. -/
theorem drain_exit_requires_none_then_ready_witness :
    2 ≤ 2 ∧ c1WitnessStream 0 = sentinel ∧ Status.ready (c1WitnessStream 1) = true :=
  drain_exit_requires_none_then_ready c1WitnessStream 1 2 (by rfl)

/-- C2: one read of the data register consumes exactly one transport
response; the result is None iff the raw word was the sentinel 0xFFFFFFFF,
and any other raw word is returned unchanged as Some. -/
theorem read_sentinel_iff_none (s : Nat → Nat) (p : Nat) :
    (readOne s p).2 = p + 1 ∧
    ((readOne s p).1 = none ↔ s p = sentinel) ∧
    (∀ w, w ≠ sentinel → read w = some w) := by
  refine ⟨rfl, ?_, ?_⟩
  · unfold readOne read
    by_cases h : s p = sentinel <;> simp [h]
  · intro w hw
    unfold read
    simp [hw]

/-- C2 witness: a non-sentinel word maps to Some unchanged and the sentinel
maps to None. -/
theorem read_sentinel_iff_none_witness :
    read 5 = some 5 ∧ (readOne (fun _ => 0xFFFFFFFF) 0).1 = none :=
  ⟨(read_sentinel_iff_none (fun _ => 0xFFFFFFFF) 0).2.2 5 (by decide),
   ((read_sentinel_iff_none (fun _ => 0xFFFFFFFF) 0).2.1).mpr rfl⟩

/-- C3: in the Full-to-Stopping shutdown sequence of src/main.rs, the store
that sets stop-on-flush bit 12 of ETF_FFCR is issued and committed (the
subsequent load observes bit 12 set) strictly before the store that sets the
manual-flush bit 6; no store carrying the flushman bit precedes it. -/
theorem stop_sequence_orders_stoponfl_before_flush (w : Nat)
    (hw : w < 2 ^ 32) (h6 : FormatFlushControl.flushman w = false) :
    ∃ w1 w2,
      stopSequenceOps w =
        ([FfcrEv.load w, FfcrEv.store w1, FfcrEv.load w1, FfcrEv.store w2], w2) ∧
      FormatFlushControl.stoponfl w1 = true ∧
      FormatFlushControl.flushman w1 = false ∧
      FormatFlushControl.stoponfl w2 = true ∧
      FormatFlushControl.flushman w2 = true := by
  have h1 : FormatFlushControl.setStoponfl true w < 2 ^ 32 := setStoponfl_lt true w hw
  refine ⟨FormatFlushControl.setStoponfl true w,
    FormatFlushControl.setFlushman true (FormatFlushControl.setStoponfl true w),
    rfl, ?_, ?_, ?_, ?_⟩
  · unfold FormatFlushControl.stoponfl
    rw [setStoponfl_testBit true w 12 hw]
    simp
  · unfold FormatFlushControl.flushman
    rw [setStoponfl_testBit true w 6 hw]
    simpa using h6
  · unfold FormatFlushControl.stoponfl
    rw [setFlushman_testBit true _ 12 h1]
    simp only [if_neg (by norm_num : (12 : Nat) ≠ 6)]
    rw [setStoponfl_testBit true w 12 hw]
    simp
  · unfold FormatFlushControl.flushman
    rw [setFlushman_testBit true _ 6 h1]
    simp

/-- C3 witness: the shutdown sequence starting from ETF_FFCR value 0. -/
theorem stop_sequence_orders_stoponfl_before_flush_witness :
    ∃ w1 w2,
      stopSequenceOps 0 =
        ([FfcrEv.load 0, FfcrEv.store w1, FfcrEv.load w1, FfcrEv.store w2], w2) ∧
      FormatFlushControl.stoponfl w1 = true ∧
      FormatFlushControl.flushman w1 = false ∧
      FormatFlushControl.stoponfl w2 = true ∧
      FormatFlushControl.flushman w2 = true :=
  stop_sequence_orders_stoponfl_before_flush 0 (by norm_num) (by decide)

/-- C4 counterexample: for the word-count value 2^30 = 1073741824 held in a
32-bit register, the u32 multiplication by 4 wraps, so neither fill_level
nor fifo_size returns 4 times the register value. -/
theorem fill_level_overflow_cex :
    fill_level 1073741824 ≠ 4 * 1073741824 ∧
    fifo_size 1073741824 ≠ 4 * 1073741824 := by
  decide

/-- C4 amended: for every word-count value v < 2^30 (so that the u32
multiplication cannot wrap), fill_level returns exactly 4*v bytes and
fifo_size returns exactly 4*v bytes. -/
theorem fill_level_fifo_size_times_four (v : Nat) (h : v < 2 ^ 30) :
    fill_level v = 4 * v ∧ fifo_size v = 4 * v := by
  have h30 : (2 : Nat) ^ 30 = 1073741824 := by norm_num
  have h32 : (2 : Nat) ^ 32 = 4294967296 := by norm_num
  unfold fill_level fifo_size
  constructor <;> (rw [Nat.mod_eq_of_lt (by omega)]; omega)

/-- C4 witness: a size register reading 4096 words yields 16384 bytes. -/
theorem fill_level_fifo_size_times_four_witness :
    fill_level 4096 = 4 * 4096 ∧ fifo_size 4096 = 4 * 4096 :=
  fill_level_fifo_size_times_four 4096 (by norm_num)

/-- C5: each status query performs one fresh Status load and returns exactly
the corresponding bit of the loaded word, with the layout bit0 = full,
bit1 = trigd, bit2 = ready, bit4 = empty; for the status word 0b00000101,
full and ready are true while empty and trigd are false. -/
theorem status_queries_fresh_load_bits (s : Nat → Nat) (p : Nat) :
    fullQ s p = ((s p).testBit 0, p + 1) ∧
    triggeredQ s p = ((s p).testBit 1, p + 1) ∧
    readyQ s p = ((s p).testBit 2, p + 1) ∧
    emptyQ s p = ((s p).testBit 4, p + 1) ∧
    Status.full 0b00000101 = true ∧ Status.ready 0b00000101 = true ∧
    Status.empty 0b00000101 = false ∧ Status.trigd 0b00000101 = false :=
  ⟨rfl, rfl, rfl, rfl, by decide, by decide, by decide, by decide⟩

/-- C6 counterexample: on the transport behaviour c6Stream, whose reads keep
yielding data and never return the sentinel, the drain loop never
terminates: it is not a total operation and surfaces no error. -/
theorem drain_never_terminates_on_endless_data : drainDiverges c6Stream :=
  fun fuel => drain_none_of_no_sentinel c6Stream
    (fun i => by unfold c6Stream sentinel; omega) fuel 0

/-- C6 amended: the drain loop imposes no iteration bound and raises no
distinct fatal error; under any transport behaviour that never returns the
sentinel the loop never terminates. -/
theorem drain_diverges_without_sentinel (s : Nat → Nat)
    (h : ∀ i, s i ≠ sentinel) : drainDiverges s :=
  fun fuel => drain_none_of_no_sentinel s h fuel 0

/-- C6 witness: the constant-2 transport behaviour never returns the
sentinel and the loop diverges on it. -/
theorem drain_diverges_without_sentinel_witness : drainDiverges c6WitnessStream :=
  drain_diverges_without_sentinel c6WitnessStream
    (fun i => by unfold c6WitnessStream sentinel; omega)

/-- C7: enable_capture and disable_capture write the fixed full words 1 and
0 to the Control register, are idempotent for every starting register state,
and touch no other register. -/
theorem capture_enable_disable_idempotent (r : EtfRegs) :
    enable_capture (enable_capture r) = enable_capture r ∧
    disable_capture (disable_capture r) = disable_capture r ∧
    (enable_capture r).ctl = 1 ∧ (disable_capture r).ctl = 0 ∧
    (enable_capture r).modeReg = r.modeReg ∧ (enable_capture r).ffcr = r.ffcr ∧
    (disable_capture r).modeReg = r.modeReg ∧ (disable_capture r).ffcr = r.ffcr :=
  ⟨rfl, rfl, rfl, rfl, rfl, rfl, rfl, rfl⟩

/-- C8: set_mode overwrites only the 2-bit mode field (bits [1:0]) of the
Mode register with the encoding Circular = 00, Software = 01, Hardware = 10,
leaves every other Mode-register bit unchanged, and has no side effect on
the Control register or ETF_FFCR. -/
theorem set_mode_overwrites_only_mode_field (m : Mode) (r : EtfRegs)
    (h : r.modeReg < 2 ^ 32) :
    EtfMode.mode ((set_mode m r).modeReg) = Mode.enc m ∧
    (∀ i, 2 ≤ i → ((set_mode m r).modeReg).testBit i = r.modeReg.testBit i) ∧
    (set_mode m r).ctl = r.ctl ∧ (set_mode m r).ffcr = r.ffcr := by
  refine ⟨?_, ?_, rfl, rfl⟩
  · show EtfMode.mode (EtfMode.setMode (Mode.enc m) r.modeReg) = Mode.enc m
    rw [mode_of_setMode]
    cases m <;> decide
  · intro i hi
    exact setMode_testBit_high (Mode.enc m) r.modeReg i h hi

/-- C8 witness: setting Software mode on a zeroed register file reads back
mode bits 01 and leaves the Control register untouched. -/
theorem set_mode_overwrites_only_mode_field_witness :
    EtfMode.mode ((set_mode Mode.Software ⟨0, 0, 0⟩).modeReg) = Mode.enc Mode.Software ∧
    (set_mode Mode.Software (⟨0, 0, 0⟩ : EtfRegs)).ctl = (⟨0, 0, 0⟩ : EtfRegs).ctl :=
  ⟨(set_mode_overwrites_only_mode_field Mode.Software ⟨0, 0, 0⟩ (by norm_num)).1,
   (set_mode_overwrites_only_mode_field Mode.Software ⟨0, 0, 0⟩ (by norm_num)).2.2.1⟩

/-- C9: a demultiplexed byte tagged with the requested ITM channel 13 is
written to the output, a byte tagged 0 is discarded, and a byte with any
other tag is reported via a warning and discarded; processing is a total
function and the handling of any list of subsequent pairs is unaffected by
the pairs before it, so an unexpected tag never aborts the session. -/
theorem unexpected_tag_nonfatal :
    (∀ d, handleTaggedByte 13 d = TagAction.write d) ∧
    (∀ d, handleTaggedByte 0 d = TagAction.discard) ∧
    (∀ i d, i ≠ 13 → i ≠ 0 → handleTaggedByte i d = TagAction.warnDiscard i d) ∧
    (∀ xs ys, processPairs (xs ++ ys) =
      ((processPairs xs).1 ++ (processPairs ys).1,
       (processPairs xs).2 ++ (processPairs ys).2)) := by
  refine ⟨fun d => rfl, fun d => rfl, ?_, ?_⟩
  · intro i d h13 h0
    unfold handleTaggedByte
    simp [h13, h0]
  · intro xs ys
    induction xs with
    | nil => simp [processPairs]
    | cons p rest ih =>
      obtain ⟨id, d⟩ := p
      simp only [List.cons_append, processPairs, ih]
      cases handleTaggedByte id d <;> simp [ih]

/-- C9 witness: an unexpected tag 7 is warned about and discarded without
affecting the ITM byte that follows it. -/
theorem unexpected_tag_nonfatal_witness :
    handleTaggedByte 7 9 = TagAction.warnDiscard 7 9 ∧
    handleTaggedByte 13 1 = TagAction.write 1 ∧
    handleTaggedByte 0 2 = TagAction.discard ∧
    processPairs ([(7, 9)] ++ [(13, 1)]) =
      ((processPairs [(7, 9)]).1 ++ (processPairs [(13, 1)]).1,
       (processPairs [(7, 9)]).2 ++ (processPairs [(13, 1)]).2) :=
  ⟨unexpected_tag_nonfatal.2.2.1 7 9 (by decide) (by decide),
   unexpected_tag_nonfatal.1 1,
   unexpected_tag_nonfatal.2.1 2,
   unexpected_tag_nonfatal.2.2.2 [(7, 9)] [(13, 1)]⟩

/-- C10: stop_on_flush and manual_flush each modify only their own bit of
the loaded ETF_FFCR word (bit 12 stoponfl, bit 6 flushman) and preserve
every other bit; in particular stop_on_flush(true) followed by manual_flush
leaves bit 12 set in the word manual_flush stores. -/
theorem ffcr_ops_touch_only_own_bit (w : Nat) (hw : w < 2 ^ 32) :
    (∀ b i, i ≠ 12 → (FormatFlushControl.setStoponfl b w).testBit i = w.testBit i) ∧
    (∀ b, FormatFlushControl.stoponfl (FormatFlushControl.setStoponfl b w) = b) ∧
    (∀ i, i ≠ 6 → (FormatFlushControl.setFlushman true w).testBit i = w.testBit i) ∧
    FormatFlushControl.flushman (FormatFlushControl.setFlushman true w) = true ∧
    FormatFlushControl.stoponfl
      (FormatFlushControl.setFlushman true (FormatFlushControl.setStoponfl true w)) =
      true := by
  have h1 : FormatFlushControl.setStoponfl true w < 2 ^ 32 := setStoponfl_lt true w hw
  refine ⟨?_, ?_, ?_, ?_, ?_⟩
  · intro b i hi
    rw [setStoponfl_testBit b w i hw]
    simp [hi]
  · intro b
    unfold FormatFlushControl.stoponfl
    rw [setStoponfl_testBit b w 12 hw]
    simp
  · intro i hi
    rw [setFlushman_testBit true w i hw]
    simp [hi]
  · unfold FormatFlushControl.flushman
    rw [setFlushman_testBit true w 6 hw]
    simp
  · unfold FormatFlushControl.stoponfl
    rw [setFlushman_testBit true _ 12 h1]
    simp only [if_neg (by norm_num : (12 : Nat) ≠ 6)]
    rw [setStoponfl_testBit true w 12 hw]
    simp

/-- C10 witness: starting from ETF_FFCR value 0, the combined sequence
leaves bit 12 set in the stored word and manual_flush preserves bit 0. -/
theorem ffcr_ops_touch_only_own_bit_witness :
    FormatFlushControl.stoponfl
      (FormatFlushControl.setFlushman true (FormatFlushControl.setStoponfl true 0)) =
      true ∧
    (FormatFlushControl.setFlushman true 0).testBit 0 = (0 : Nat).testBit 0 :=
  ⟨(ffcr_ops_touch_only_own_bit 0 (by norm_num)).2.2.2.2,
   (ffcr_ops_touch_only_own_bit 0 (by norm_num)).2.2.1 0 (by decide)⟩

end EtfTrace
